import Mathlib

/-!
Verification development for the GSM8k importer script
(`scripts/import_gsm8k.py`): a one-shot ETL that reads a parquet file of
question/answer rows, filters out rows with a falsy question or answer,
maps the remaining rows to test-case records, assembles a test-set record
with two UTC timestamps, and persists it to Redis under two keys.

The script is embedded shallowly: pandas cell values become the `Value`
type with Python truthiness, the row loop becomes `processRow`/`transform`,
`datetime.utcnow().isoformat()` becomes `isoformat` over an explicit
clock reading, `json.dumps` becomes the `serialize*` functions, and the
Redis commands `SADD`/`SET` become pure updates on a `RedisState`.  The
whole `main` procedure is a function of its external inputs: the parquet
load result, the outcome of the `PING` liveness check, the two clock
readings, and the initial store state; it returns the store-effect trace,
the final store state, and the count reported on success.
-/

namespace GSM8kImport

/-- A Python runtime value as it can occur in a pandas row cell or be
returned by `row.get`: `Python None`, a string, an integer, a boolean, or
the float NaN that pandas uses to mark a missing value.  (Non-NaN floats
other than these do not arise in the claims; NaN is kept as a distinguished
constructor because its truthiness, unlike its equality, is well defined.) -/
inductive Value where
  | vNone : Value
  | vStr : String → Value
  | vInt : Int → Value
  | vBool : Bool → Value
  | vNaN : Value
  deriving DecidableEq

/-- Python truthiness (`bool(x)`): `None`, `""`, `0` and `False` are falsy;
non-empty strings, non-zero ints, `True`, and float NaN are truthy. -/
def truthy : Value → Bool
  | .vNone => false
  | .vStr s => s != ""
  | .vInt n => n != 0
  | .vBool b => b
  | .vNaN => true

/-- One record of the source file.  Only the `question` and `answer`
columns are consumed; `Option.none` means the column is absent from the
row (in which case `row.get` returns Python `None`). -/
structure Row where
  question : Option Value
  answer : Option Value
  deriving DecidableEq

/-- `row.get(col)`: the cell value, or Python `None` when the column is
absent. -/
def rowGet (o : Option Value) : Value := o.getD .vNone

-- Fixed configuration constants of the script.
def TEST_SET_ID : String := "GSM8k"
def TEST_SET_NAME : String := "GSM8k Benchmark"
def TEST_SET_DESC : String := "Grade School Math 8k Test Set"

/-- The per-row record built by the loop body.  `prompt` and
`expectedResponse` hold whatever values the row carried (strings in the
intended schema, but the code copies any value verbatim). -/
structure TestCase where
  id : String
  name : String
  prompt : Value
  expectedActivations : List Value
  expectedResponse : Value
  deriving DecidableEq

/-- The loop body for one `(index, row)` pair of `df.iterrows()`:
`question = row.get('question'); answer = row.get('answer');
if not question or not answer: continue` — otherwise append the record. -/
def processRow (index : Nat) (row : Row) : Option TestCase :=
  let question := rowGet row.question
  let answer := rowGet row.answer
  if !truthy question || !truthy answer then none
  else
    some { id := TEST_SET_ID ++ "-T" ++ toString index
           name := "GSM8k #" ++ toString (index + 1)
           prompt := question
           expectedActivations := []
           expectedResponse := answer }

/-- The whole transform pass: iterate rows in file order with their
zero-based position (pandas gives a parquet-loaded frame the default
`RangeIndex`, so `iterrows` yields exactly the enumeration) and collect
the produced records in order. -/
def transform (rows : List Row) : List TestCase :=
  rows.enum.filterMap fun p => processRow p.1 p.2

/-- A value of `datetime.utcnow()`: one clock reading, broken into the
fields `isoformat` renders. -/
structure PyDateTime where
  year : Nat
  month : Nat
  day : Nat
  hour : Nat
  minute : Nat
  second : Nat
  microsecond : Nat
  deriving DecidableEq

/-- Left-pad the decimal rendering of `n` with zeros to width `w`. -/
def padZero (w : Nat) (n : Nat) : String :=
  let s := toString n
  String.mk (List.replicate (w - s.length) '0') ++ s

/-- `datetime.isoformat()`: `YYYY-MM-DDTHH:MM:SS` with a `.ffffff`
microsecond part appended exactly when the microsecond field is
non-zero. -/
def isoformat (d : PyDateTime) : String :=
  padZero 4 d.year ++ "-" ++ padZero 2 d.month ++ "-" ++ padZero 2 d.day ++ "T" ++
  padZero 2 d.hour ++ ":" ++ padZero 2 d.minute ++ ":" ++ padZero 2 d.second ++
  (if d.microsecond = 0 then "" else "." ++ padZero 6 d.microsecond)

/-- The aggregate record the script builds after the loop, from the
collected `tests` and the two successive `datetime.utcnow()` readings. -/
structure TestSet where
  id : String
  name : String
  description : String
  tests : List TestCase
  createdAt : String
  updatedAt : String
  deriving DecidableEq

/-- `test_set = {..., "createdAt": datetime.utcnow().isoformat() + "Z",
"updatedAt": datetime.utcnow().isoformat() + "Z"}` — note the clock is
read twice, once per field. -/
def buildTestSet (tests : List TestCase) (t1 t2 : PyDateTime) : TestSet :=
  { id := TEST_SET_ID
    name := TEST_SET_NAME
    description := TEST_SET_DESC
    tests := tests
    createdAt := isoformat t1 ++ "Z"
    updatedAt := isoformat t2 ++ "Z" }

def hexDigit (n : Nat) : Char :=
  if n < 10 then Char.ofNat (48 + n) else Char.ofNat (87 + n)

def hex4 (n : Nat) : String :=
  String.mk [hexDigit (n / 4096 % 16), hexDigit (n / 256 % 16),
             hexDigit (n / 16 % 16), hexDigit (n % 16)]

/-- One character under `json.dumps` default (ensure-ascii) escaping:
quote, backslash and the short control escapes get a backslash form, all
other characters outside `0x20`–`0x7e` become `\uXXXX` (a surrogate pair
above `0xffff`), and printable ASCII passes through. -/
def escapeChar (c : Char) : String :=
  if c = '"' then "\\\""
  else if c = '\\' then "\\\\"
  else if c = '\n' then "\\n"
  else if c = '\t' then "\\t"
  else if c = '\r' then "\\r"
  else if c = '\x08' then "\\b"
  else if c = '\x0c' then "\\f"
  else if c.toNat < 0x20 then "\\u" ++ hex4 c.toNat
  else if c.toNat < 0x7f then String.singleton c
  else if c.toNat < 0x10000 then "\\u" ++ hex4 c.toNat
  else
    let v := c.toNat - 0x10000
    "\\u" ++ hex4 (0xd800 + v / 1024) ++ "\\u" ++ hex4 (0xdc00 + v % 1024)

/-- A JSON string literal as `json.dumps` renders it. -/
def jsonStr (s : String) : String :=
  "\"" ++ String.join (s.data.map escapeChar) ++ "\""

/-- `json.dumps` of a leaf Python value.  (`json.dumps` renders float NaN
as the bare token `NaN`.) -/
def serializeValue : Value → String
  | .vNone => "null"
  | .vStr s => jsonStr s
  | .vInt n => toString n
  | .vBool b => if b then "true" else "false"
  | .vNaN => "NaN"

/-- `json.dumps` of one test-case dict, with Python dict insertion order
and the default separators. -/
def serializeTestCase (tc : TestCase) : String :=
  "\x7b\"id\": " ++ jsonStr tc.id ++
  ", \"name\": " ++ jsonStr tc.name ++
  ", \"prompt\": " ++ serializeValue tc.prompt ++
  ", \"expectedActivations\": [" ++
    String.intercalate ", " (tc.expectedActivations.map serializeValue) ++
  "], \"expectedResponse\": " ++ serializeValue tc.expectedResponse ++ "\x7d"

/-- `json.dumps(test_set)`: the persisted payload string. -/
def serializeTestSet (ts : TestSet) : String :=
  "\x7b\"id\": " ++ jsonStr ts.id ++
  ", \"name\": " ++ jsonStr ts.name ++
  ", \"description\": " ++ jsonStr ts.description ++
  ", \"tests\": [" ++ String.intercalate ", " (ts.tests.map serializeTestCase) ++
  "], \"createdAt\": " ++ jsonStr ts.createdAt ++
  ", \"updatedAt\": " ++ jsonStr ts.updatedAt ++ "\x7d"

/-- The Redis keyspace: set-valued keys as membership predicates (a Redis
set holds each member at most once, so membership is the whole state) and
string-valued keys as an optional value per key. -/
structure RedisState where
  sets : String → String → Bool
  strings : String → Option String

/-- `SADD key member`: make `member` a member of the set at `key`;
re-adding an existing member changes nothing. -/
def sadd (st : RedisState) (key member : String) : RedisState :=
  { st with
    sets := fun k m =>
      if k = key then (if m = member then true else st.sets k m)
      else st.sets k m }

/-- `SET key value`: unconditionally overwrite the string at `key`. -/
def redisSet (st : RedisState) (key value : String) : RedisState :=
  { st with strings := fun k => if k = key then some value else st.strings k }

/-- One observable interaction with the store, in order.  (`redis.Redis(...)`
itself opens no connection — the client is lazy — so the first wire
interaction, and the liveness round-trip, is the `PING`.) -/
inductive Effect where
  | ping : Effect
  | saddE : String → String → Effect
  | setE : String → String → Effect
  deriving DecidableEq

/-- What one run of `main` did: the ordered store interactions, the final
store state, and the test count reported by the final success message
(`none` when the run aborted before it). -/
structure RunResult where
  trace : List Effect
  store : RedisState
  reported : Option Nat

/-- The whole `main` procedure as a function of its external inputs:
`loadResult` is the outcome of `pd.read_parquet` (`none` = any exception),
`pingOk` the outcome of `r.ping()`, `t1`/`t2` the two successive
`datetime.utcnow()` readings, `st` the store state the run starts from.
A failed load returns before any store interaction; a failed ping returns
after the ping with nothing written; otherwise the transform runs, the
test set is assembled and the two writes happen in order. -/
def main (loadResult : Option (List Row)) (pingOk : Bool)
    (t1 t2 : PyDateTime) (st : RedisState) : RunResult :=
  match loadResult with
  | Option.none => { trace := [], store := st, reported := Option.none }
  | some rows =>
    if pingOk then
      let tests := transform rows
      let test_set := buildTestSet tests t1 t2
      let payload := serializeTestSet test_set
      let st1 := sadd st "sz:test_sets" TEST_SET_ID
      let st2 := redisSet st1 ("sz:test_set:" ++ TEST_SET_ID) payload
      { trace := [Effect.ping, Effect.saddE "sz:test_sets" TEST_SET_ID,
                  Effect.setE ("sz:test_set:" ++ TEST_SET_ID) payload]
        store := st2
        reported := some tests.length }
    else
      { trace := [Effect.ping], store := st, reported := Option.none }

end GSM8kImport

namespace GSM8kImport

/-- The condition under which the loop body produces a record: both
extracted values are truthy (the negation of `not question or not answer`). -/
def rowEligible (r : Row) : Bool :=
  truthy (rowGet r.question) && truthy (rowGet r.answer)

/-- A field value of the shape the intended schema allows: absent, null,
or a string. -/
def fieldIsOptStr : Option Value → Bool
  | Option.none => true
  | some .vNone => true
  | some (.vStr _) => true
  | _ => false

/-- Both consumed fields of the row are absent/null/string. -/
def rowWellTyped (r : Row) : Bool :=
  fieldIsOptStr r.question && fieldIsOptStr r.answer

/-- The spec's "non-empty" predicate on a field: present and a non-empty
string. -/
def fieldNonEmptyStr : Option Value → Bool
  | some (.vStr s) => s != ""
  | _ => false

lemma processRow_isSome (i : Nat) (r : Row) :
    (processRow i r).isSome = rowEligible r := by
  unfold rowEligible
  cases hq : truthy (rowGet r.question) <;> cases ha : truthy (rowGet r.answer) <;>
    simp [processRow, hq, ha]

lemma filterMap_processRow_length (l : List (Nat × Row)) :
    (l.filterMap fun p => processRow p.1 p.2).length
      = l.countP fun p => rowEligible p.2 := by
  induction l with
  | nil => rfl
  | cons p l ih =>
    rw [List.filterMap_cons, List.countP_cons]
    cases hp : processRow p.1 p.2 with
    | none =>
      have he : rowEligible p.2 = false := by
        have h := processRow_isSome p.1 p.2
        rw [hp] at h
        simpa using h.symm
      simp [he, ih]
    | some tc =>
      have he : rowEligible p.2 = true := by
        have h := processRow_isSome p.1 p.2
        rw [hp] at h
        simpa using h.symm
      simp [he, ih]

lemma transform_length (rows : List Row) :
    (transform rows).length = rows.countP rowEligible := by
  unfold transform
  rw [filterMap_processRow_length]
  conv_rhs => rw [← List.enum_map_snd rows]
  rw [List.countP_map]
  rfl

lemma eligible_eq_nonEmpty (r : Row) (h : rowWellTyped r = true) :
    rowEligible r = (fieldNonEmptyStr r.question && fieldNonEmptyStr r.answer) := by
  obtain ⟨q, a⟩ := r
  simp only [rowWellTyped] at h
  rcases q with _ | v
  · rcases a with _ | w
    · rfl
    · cases w <;> simp_all [rowEligible, fieldNonEmptyStr, fieldIsOptStr, rowGet, truthy]
  · rcases a with _ | w
    · cases v <;> simp_all [rowEligible, fieldNonEmptyStr, fieldIsOptStr, rowGet, truthy]
    · cases v <;> cases w <;>
        simp_all [rowEligible, fieldNonEmptyStr, fieldIsOptStr, rowGet, truthy]

/-- C1: a row whose question and answer are both non-empty strings yields
exactly the record with id `"GSM8k-T{index}"`, name `"GSM8k #{index+1}"`
(zero-based row position as index), prompt and expectedResponse copied
from the row, and empty expectedActivations; that record is in the
transform's output. -/
theorem c1_eligible_row_yields_indexed_testcase
    (rows : List Row) (i : Nat) (h : i < rows.length) (q a : String)
    (hq : (rows.get ⟨i, h⟩).question = some (.vStr q))
    (ha : (rows.get ⟨i, h⟩).answer = some (.vStr a))
    (hq2 : q ≠ "") (ha2 : a ≠ "") :
    processRow i (rows.get ⟨i, h⟩) =
      some { id := "GSM8k-T" ++ toString i
             name := "GSM8k #" ++ toString (i + 1)
             prompt := .vStr q
             expectedActivations := []
             expectedResponse := .vStr a }
    ∧ ({ id := "GSM8k-T" ++ toString i
         name := "GSM8k #" ++ toString (i + 1)
         prompt := Value.vStr q
         expectedActivations := []
         expectedResponse := Value.vStr a } : TestCase) ∈ transform rows := by
  have hpr : processRow i (rows.get ⟨i, h⟩) =
      some { id := "GSM8k-T" ++ toString i
             name := "GSM8k #" ++ toString (i + 1)
             prompt := .vStr q
             expectedActivations := []
             expectedResponse := .vStr a } := by
    unfold processRow rowGet truthy
    rw [hq, ha]
    simp [hq2, ha2, TEST_SET_ID]
  refine ⟨hpr, ?_⟩
  unfold transform
  refine List.mem_filterMap.mpr ⟨(i, rows.get ⟨i, h⟩), ?_, hpr⟩
  exact List.mem_enum_iff_getElem?.mpr (by simp)

theorem c1_witness :
    processRow 0 ((⟨some (.vStr "Q0"), some (.vStr "A0")⟩ : Row)) =
      some { id := "GSM8k-T0", name := "GSM8k #1", prompt := .vStr "Q0"
             expectedActivations := [], expectedResponse := .vStr "A0" }
    ∧ ({ id := "GSM8k-T0", name := "GSM8k #1", prompt := Value.vStr "Q0"
         expectedActivations := [], expectedResponse := Value.vStr "A0" } : TestCase)
        ∈ transform [⟨some (.vStr "Q0"), some (.vStr "A0")⟩] :=
  c1_eligible_row_yields_indexed_testcase
    [⟨some (.vStr "Q0"), some (.vStr "A0")⟩] 0 (by decide) "Q0" "A0"
    rfl rfl (by decide) (by decide)

/-- C2: every produced record carries the original zero-based row position
of the row it came from — its id suffix and display number are derived
from that position, not from a compacted counter — so skipped rows leave
gaps in the numbering. -/
theorem c2_indices_reflect_original_position
    (rows : List Row) (tc : TestCase) (h : tc ∈ transform rows) :
    ∃ i r, rows[i]? = some r ∧ processRow i r = some tc
      ∧ tc.id = "GSM8k-T" ++ toString i
      ∧ tc.name = "GSM8k #" ++ toString (i + 1) := by
  unfold transform at h
  obtain ⟨⟨i, r⟩, hmem, hpr⟩ := List.mem_filterMap.mp h
  have hidx : rows[i]? = some r := List.mem_enum_iff_getElem?.mp hmem
  refine ⟨i, r, hidx, hpr, ?_⟩
  simp only [processRow] at hpr
  split at hpr
  · simp at hpr
  · injection hpr with h2
    subst h2
    constructor
    · simp [TEST_SET_ID]
    · rfl

theorem c2_witness :
    ∃ i r,
      ([⟨some (.vStr "Q0"), some (.vStr "A0")⟩,
        ⟨some (.vStr "Q1"), Option.none⟩,
        ⟨some (.vStr "Q2"), some (.vStr "A2")⟩] : List Row)[i]? = some r
      ∧ processRow i r =
          some { id := "GSM8k-T2", name := "GSM8k #3", prompt := Value.vStr "Q2"
                 expectedActivations := [], expectedResponse := Value.vStr "A2" }
      ∧ ({ id := "GSM8k-T2", name := "GSM8k #3", prompt := Value.vStr "Q2"
           expectedActivations := [], expectedResponse := Value.vStr "A2" } : TestCase).id
          = "GSM8k-T" ++ toString i
      ∧ ({ id := "GSM8k-T2", name := "GSM8k #3", prompt := Value.vStr "Q2"
           expectedActivations := [], expectedResponse := Value.vStr "A2" } : TestCase).name
          = "GSM8k #" ++ toString (i + 1) :=
  c2_indices_reflect_original_position
    [⟨some (.vStr "Q0"), some (.vStr "A0")⟩,
     ⟨some (.vStr "Q1"), Option.none⟩,
     ⟨some (.vStr "Q2"), some (.vStr "A2")⟩]
    { id := "GSM8k-T2", name := "GSM8k #3", prompt := Value.vStr "Q2"
      expectedActivations := [], expectedResponse := Value.vStr "A2" }
    (by decide)

end GSM8kImport

namespace GSM8kImport

/-- C3: under the intended schema (each field absent, null, or a string),
the transform output length — which is both the length of the persisted
`tests` sequence and the count the final message reports — equals the
number of rows whose question and answer are both non-empty. -/
theorem c3_persisted_length_eq_eligible_count
    (rows : List Row) (t1 t2 : PyDateTime) (st : RedisState)
    (hw : ∀ r ∈ rows, rowWellTyped r = true) :
    (transform rows).length
        = rows.countP (fun r => fieldNonEmptyStr r.question && fieldNonEmptyStr r.answer)
    ∧ (main (some rows) true t1 t2 st).reported = some (transform rows).length
    ∧ (main (some rows) true t1 t2 st).store.strings ("sz:test_set:" ++ TEST_SET_ID)
        = some (serializeTestSet (buildTestSet (transform rows) t1 t2)) := by
  refine ⟨?_, rfl, ?_⟩
  · rw [transform_length]
    exact List.countP_congr fun r hr => by rw [eligible_eq_nonEmpty r (hw r hr)]
  · simp [main, redisSet, sadd]

theorem c3_witness :
    (transform [⟨some (.vStr "Q0"), some (.vStr "A0")⟩,
                ⟨some (.vStr "Q1"), Option.none⟩,
                ⟨some (.vStr "Q2"), some (.vStr "A2")⟩]).length
        = ([⟨some (.vStr "Q0"), some (.vStr "A0")⟩,
            ⟨some (.vStr "Q1"), Option.none⟩,
            ⟨some (.vStr "Q2"), some (.vStr "A2")⟩] : List Row).countP
            (fun r => fieldNonEmptyStr r.question && fieldNonEmptyStr r.answer)
    ∧ (main (some [⟨some (.vStr "Q0"), some (.vStr "A0")⟩,
                   ⟨some (.vStr "Q1"), Option.none⟩,
                   ⟨some (.vStr "Q2"), some (.vStr "A2")⟩]) true
         ⟨2025,1,1,0,0,0,0⟩ ⟨2025,1,1,0,0,0,0⟩
         ⟨fun _ _ => false, fun _ => Option.none⟩).reported
        = some (transform [⟨some (.vStr "Q0"), some (.vStr "A0")⟩,
                           ⟨some (.vStr "Q1"), Option.none⟩,
                           ⟨some (.vStr "Q2"), some (.vStr "A2")⟩]).length
    ∧ (main (some [⟨some (.vStr "Q0"), some (.vStr "A0")⟩,
                   ⟨some (.vStr "Q1"), Option.none⟩,
                   ⟨some (.vStr "Q2"), some (.vStr "A2")⟩]) true
         ⟨2025,1,1,0,0,0,0⟩ ⟨2025,1,1,0,0,0,0⟩
         ⟨fun _ _ => false, fun _ => Option.none⟩).store.strings
            ("sz:test_set:" ++ TEST_SET_ID)
        = some (serializeTestSet (buildTestSet
            (transform [⟨some (.vStr "Q0"), some (.vStr "A0")⟩,
                        ⟨some (.vStr "Q1"), Option.none⟩,
                        ⟨some (.vStr "Q2"), some (.vStr "A2")⟩])
            ⟨2025,1,1,0,0,0,0⟩ ⟨2025,1,1,0,0,0,0⟩)) :=
  c3_persisted_length_eq_eligible_count
    [⟨some (.vStr "Q0"), some (.vStr "A0")⟩,
     ⟨some (.vStr "Q1"), Option.none⟩,
     ⟨some (.vStr "Q2"), some (.vStr "A2")⟩]
    ⟨2025,1,1,0,0,0,0⟩ ⟨2025,1,1,0,0,0,0⟩
    ⟨fun _ _ => false, fun _ => Option.none⟩ (by decide)

/-- C4 counterexample: the script reads the clock once per timestamp
field, so when the second `utcnow` reading is one microsecond later than
the first, the assembled record has `createdAt ≠ updatedAt`, refuting the
claim that the two fields are always equal. -/
theorem c4_counterexample :
    ¬ ((buildTestSet [] ⟨2025,1,1,0,0,0,0⟩ ⟨2025,1,1,0,0,0,1⟩).createdAt
       = (buildTestSet [] ⟨2025,1,1,0,0,0,0⟩ ⟨2025,1,1,0,0,0,1⟩).updatedAt) := by
  decide

/-- C4 (amended): `createdAt` and `updatedAt` are each the ISO-8601
rendering of one `utcnow` reading with a literal `"Z"` appended, and the
two fields are equal whenever the two successive clock readings taken for
them coincide (the clock is read twice, once per field). -/
theorem c4_timestamps_equal_when_clock_readings_equal
    (tests : List TestCase) (t1 t2 : PyDateTime) (h : t1 = t2) :
    (buildTestSet tests t1 t2).createdAt = isoformat t1 ++ "Z"
    ∧ (buildTestSet tests t1 t2).updatedAt = isoformat t2 ++ "Z"
    ∧ (buildTestSet tests t1 t2).createdAt = (buildTestSet tests t1 t2).updatedAt := by
  subst h
  exact ⟨rfl, rfl, rfl⟩

theorem c4_witness :
    (buildTestSet [] ⟨2025,1,1,0,0,0,0⟩ ⟨2025,1,1,0,0,0,0⟩).createdAt
        = isoformat ⟨2025,1,1,0,0,0,0⟩ ++ "Z"
    ∧ (buildTestSet [] ⟨2025,1,1,0,0,0,0⟩ ⟨2025,1,1,0,0,0,0⟩).updatedAt
        = isoformat ⟨2025,1,1,0,0,0,0⟩ ++ "Z"
    ∧ (buildTestSet [] ⟨2025,1,1,0,0,0,0⟩ ⟨2025,1,1,0,0,0,0⟩).createdAt
        = (buildTestSet [] ⟨2025,1,1,0,0,0,0⟩ ⟨2025,1,1,0,0,0,0⟩).updatedAt :=
  c4_timestamps_equal_when_clock_readings_equal [] ⟨2025,1,1,0,0,0,0⟩ ⟨2025,1,1,0,0,0,0⟩ rfl

/-- C5: when the load fails, the run performs no store interaction at all
(in particular no liveness round-trip), writes nothing, and reports no
count: the store state is returned untouched. -/
theorem c5_load_failure_touches_nothing
    (pingOk : Bool) (t1 t2 : PyDateTime) (st : RedisState) :
    (main Option.none pingOk t1 t2 st).trace = []
    ∧ Effect.ping ∉ (main Option.none pingOk t1 t2 st).trace
    ∧ (main Option.none pingOk t1 t2 st).store = st
    ∧ (main Option.none pingOk t1 t2 st).reported = Option.none := by
  refine ⟨rfl, ?_, rfl, rfl⟩
  simp [main]

/-- C6: when the liveness check fails, the only store interaction is the
failed `PING` itself; no key is written and the store state — in
particular any previously persisted payload under the same identifier —
is returned exactly as it was. -/
theorem c6_ping_failure_leaves_store_unchanged
    (rows : List Row) (t1 t2 : PyDateTime) (st : RedisState) :
    (main (some rows) false t1 t2 st).trace = [Effect.ping]
    ∧ (main (some rows) false t1 t2 st).store = st
    ∧ (main (some rows) false t1 t2 st).store.strings ("sz:test_set:" ++ TEST_SET_ID)
        = st.strings ("sz:test_set:" ++ TEST_SET_ID)
    ∧ (main (some rows) false t1 t2 st).reported = Option.none :=
  ⟨rfl, rfl, rfl, rfl⟩

/-- C7: running the import twice with the same rows is idempotent at the
key-value layer: after the second run the index set contains the
identifier (as a set member, hence exactly once), the second run's
`SADD` changed the set layer not at all, and the payload key holds
exactly the second run's serialized test set. -/
theorem c7_rerun_idempotent_at_kv_layer
    (rows : List Row) (t1 t2 t3 t4 : PyDateTime) (st : RedisState) :
    (main (some rows) true t3 t4 ((main (some rows) true t1 t2 st).store)).store.sets
        "sz:test_sets" TEST_SET_ID = true
    ∧ (main (some rows) true t3 t4 ((main (some rows) true t1 t2 st).store)).store.sets
        = (main (some rows) true t1 t2 st).store.sets
    ∧ (main (some rows) true t3 t4 ((main (some rows) true t1 t2 st).store)).store.strings
        ("sz:test_set:" ++ TEST_SET_ID)
        = some (serializeTestSet (buildTestSet (transform rows) t3 t4)) := by
  refine ⟨?_, ?_, ?_⟩
  · simp [main, sadd, redisSet]
  · funext k m
    by_cases hk : k = "sz:test_sets" <;> by_cases hm : m = TEST_SET_ID <;>
      simp [main, sadd, redisSet, hk, hm]
  · simp [main, sadd, redisSet]

/-- C8: a successful run changes the set layer only at `sz:test_sets`,
and there only by making `GSM8k` a member; it changes the string layer
only at `sz:test_set:GSM8k`, where it writes the serialized test set.
Every other key, in both layers, is left unchanged. -/
theorem c8_success_mutates_exactly_two_keys
    (rows : List Row) (t1 t2 : PyDateTime) (st : RedisState) :
    (∀ k m, k ≠ "sz:test_sets" →
        (main (some rows) true t1 t2 st).store.sets k m = st.sets k m)
    ∧ (∀ m, m ≠ TEST_SET_ID →
        (main (some rows) true t1 t2 st).store.sets "sz:test_sets" m
          = st.sets "sz:test_sets" m)
    ∧ (main (some rows) true t1 t2 st).store.sets "sz:test_sets" TEST_SET_ID = true
    ∧ (∀ k, k ≠ "sz:test_set:" ++ TEST_SET_ID →
        (main (some rows) true t1 t2 st).store.strings k = st.strings k)
    ∧ (main (some rows) true t1 t2 st).store.strings ("sz:test_set:" ++ TEST_SET_ID)
        = some (serializeTestSet (buildTestSet (transform rows) t1 t2)) := by
  refine ⟨?_, ?_, ?_, ?_, ?_⟩
  · intro k m hk
    simp [main, sadd, redisSet, hk]
  · intro m hm
    simp [main, sadd, redisSet, hm]
  · simp [main, sadd, redisSet]
  · intro k hk
    simp [main, sadd, redisSet, hk]
  · simp [main, sadd, redisSet]

theorem c8_witness :
    ((main (some []) true ⟨2025,1,1,0,0,0,0⟩ ⟨2025,1,1,0,0,0,0⟩
        ⟨fun _ _ => false, fun _ => Option.none⟩).store.sets "someOtherKey" "x"
      = (⟨fun _ _ => false, fun _ => Option.none⟩ : RedisState).sets "someOtherKey" "x")
    ∧ ((main (some []) true ⟨2025,1,1,0,0,0,0⟩ ⟨2025,1,1,0,0,0,0⟩
        ⟨fun _ _ => false, fun _ => Option.none⟩).store.sets "sz:test_sets" "otherMember"
      = (⟨fun _ _ => false, fun _ => Option.none⟩ : RedisState).sets "sz:test_sets" "otherMember")
    ∧ ((main (some []) true ⟨2025,1,1,0,0,0,0⟩ ⟨2025,1,1,0,0,0,0⟩
        ⟨fun _ _ => false, fun _ => Option.none⟩).store.sets "sz:test_sets" TEST_SET_ID = true)
    ∧ ((main (some []) true ⟨2025,1,1,0,0,0,0⟩ ⟨2025,1,1,0,0,0,0⟩
        ⟨fun _ _ => false, fun _ => Option.none⟩).store.strings "someOtherKey"
      = (⟨fun _ _ => false, fun _ => Option.none⟩ : RedisState).strings "someOtherKey")
    ∧ ((main (some []) true ⟨2025,1,1,0,0,0,0⟩ ⟨2025,1,1,0,0,0,0⟩
        ⟨fun _ _ => false, fun _ => Option.none⟩).store.strings ("sz:test_set:" ++ TEST_SET_ID)
      = some (serializeTestSet (buildTestSet (transform [])
          ⟨2025,1,1,0,0,0,0⟩ ⟨2025,1,1,0,0,0,0⟩))) :=
  ⟨(c8_success_mutates_exactly_two_keys [] ⟨2025,1,1,0,0,0,0⟩ ⟨2025,1,1,0,0,0,0⟩
      ⟨fun _ _ => false, fun _ => Option.none⟩).1 "someOtherKey" "x" (by decide),
   (c8_success_mutates_exactly_two_keys [] ⟨2025,1,1,0,0,0,0⟩ ⟨2025,1,1,0,0,0,0⟩
      ⟨fun _ _ => false, fun _ => Option.none⟩).2.1 "otherMember" (by decide),
   (c8_success_mutates_exactly_two_keys [] ⟨2025,1,1,0,0,0,0⟩ ⟨2025,1,1,0,0,0,0⟩
      ⟨fun _ _ => false, fun _ => Option.none⟩).2.2.1,
   (c8_success_mutates_exactly_two_keys [] ⟨2025,1,1,0,0,0,0⟩ ⟨2025,1,1,0,0,0,0⟩
      ⟨fun _ _ => false, fun _ => Option.none⟩).2.2.2.1 "someOtherKey" (by decide),
   (c8_success_mutates_exactly_two_keys [] ⟨2025,1,1,0,0,0,0⟩ ⟨2025,1,1,0,0,0,0⟩
      ⟨fun _ _ => false, fun _ => Option.none⟩).2.2.2.2⟩

/-- C9: a row whose question or answer is absent, null, or the empty
string produces no record — the loop body returns nothing for it and
raises no error (the body is total), so the row is silently omitted. -/
theorem c9_missing_field_skips_row_silently (i : Nat) (r : Row)
    (h : r.question = Option.none ∨ r.question = some .vNone
       ∨ r.question = some (.vStr "")
       ∨ r.answer = Option.none ∨ r.answer = some .vNone
       ∨ r.answer = some (.vStr "")) :
    processRow i r = Option.none := by
  rcases h with h | h | h | h | h | h <;> simp [processRow, rowGet, truthy, h]

theorem c9_witness :
    processRow 1 (⟨some (.vStr "Q1"), Option.none⟩ : Row) = Option.none :=
  c9_missing_field_skips_row_silently 1 ⟨some (.vStr "Q1"), Option.none⟩
    (Or.inr (Or.inr (Or.inr (Or.inl rfl))))

/-- C10: the loop produces a record exactly when both extracted values are
truthy under Python truthiness — so a present falsy value such as `0` or
`False` is skipped like an empty string, while float NaN (pandas' marker
for a missing parquet value) is truthy and a row whose answer is
missing-as-NaN yields a record whose expectedResponse is that NaN. -/
theorem c10_truthiness_not_presence_decides_production :
    (∀ i r, (processRow i r).isSome = rowEligible r)
    ∧ (∀ i q, processRow i ⟨some (.vStr q), some (.vInt 0)⟩ = Option.none)
    ∧ (∀ i q, processRow i ⟨some (.vStr q), some (.vBool false)⟩ = Option.none)
    ∧ (∀ i, processRow i ⟨some (.vStr "Q"), some .vNaN⟩ =
        some { id := "GSM8k-T" ++ toString i
               name := "GSM8k #" ++ toString (i + 1)
               prompt := .vStr "Q"
               expectedActivations := []
               expectedResponse := .vNaN }) := by
  refine ⟨processRow_isSome, ?_, ?_, ?_⟩
  · intro i q
    simp [processRow, rowGet, truthy]
  · intro i q
    simp [processRow, rowGet, truthy]
  · intro i
    simp [processRow, rowGet, truthy, TEST_SET_ID]

end GSM8kImport

namespace GSM8kImport

theorem c5_witness :
    (main Option.none true ⟨2025,1,1,0,0,0,0⟩ ⟨2025,1,1,0,0,0,0⟩
        ⟨fun _ _ => false, fun _ => Option.none⟩).trace = []
    ∧ Effect.ping ∉ (main Option.none true ⟨2025,1,1,0,0,0,0⟩ ⟨2025,1,1,0,0,0,0⟩
        ⟨fun _ _ => false, fun _ => Option.none⟩).trace
    ∧ (main Option.none true ⟨2025,1,1,0,0,0,0⟩ ⟨2025,1,1,0,0,0,0⟩
        ⟨fun _ _ => false, fun _ => Option.none⟩).store
      = (⟨fun _ _ => false, fun _ => Option.none⟩ : RedisState)
    ∧ (main Option.none true ⟨2025,1,1,0,0,0,0⟩ ⟨2025,1,1,0,0,0,0⟩
        ⟨fun _ _ => false, fun _ => Option.none⟩).reported = Option.none :=
  c5_load_failure_touches_nothing true ⟨2025,1,1,0,0,0,0⟩ ⟨2025,1,1,0,0,0,0⟩
    ⟨fun _ _ => false, fun _ => Option.none⟩

theorem c6_witness :
    (main (some [⟨some (.vStr "Q0"), some (.vStr "A0")⟩]) false
        ⟨2025,1,1,0,0,0,0⟩ ⟨2025,1,1,0,0,0,0⟩
        ⟨fun _ _ => false, fun _ => some "old"⟩).trace = [Effect.ping]
    ∧ (main (some [⟨some (.vStr "Q0"), some (.vStr "A0")⟩]) false
        ⟨2025,1,1,0,0,0,0⟩ ⟨2025,1,1,0,0,0,0⟩
        ⟨fun _ _ => false, fun _ => some "old"⟩).store
      = (⟨fun _ _ => false, fun _ => some "old"⟩ : RedisState)
    ∧ (main (some [⟨some (.vStr "Q0"), some (.vStr "A0")⟩]) false
        ⟨2025,1,1,0,0,0,0⟩ ⟨2025,1,1,0,0,0,0⟩
        ⟨fun _ _ => false, fun _ => some "old"⟩).store.strings
          ("sz:test_set:" ++ TEST_SET_ID)
      = (⟨fun _ _ => false, fun _ => some "old"⟩ : RedisState).strings
          ("sz:test_set:" ++ TEST_SET_ID)
    ∧ (main (some [⟨some (.vStr "Q0"), some (.vStr "A0")⟩]) false
        ⟨2025,1,1,0,0,0,0⟩ ⟨2025,1,1,0,0,0,0⟩
        ⟨fun _ _ => false, fun _ => some "old"⟩).reported = Option.none :=
  c6_ping_failure_leaves_store_unchanged [⟨some (.vStr "Q0"), some (.vStr "A0")⟩]
    ⟨2025,1,1,0,0,0,0⟩ ⟨2025,1,1,0,0,0,0⟩ ⟨fun _ _ => false, fun _ => some "old"⟩

theorem c7_witness :
    (main (some [⟨some (.vStr "Q0"), some (.vStr "A0")⟩]) true
        ⟨2025,1,1,0,0,0,2⟩ ⟨2025,1,1,0,0,0,3⟩
        ((main (some [⟨some (.vStr "Q0"), some (.vStr "A0")⟩]) true
            ⟨2025,1,1,0,0,0,0⟩ ⟨2025,1,1,0,0,0,1⟩
            ⟨fun _ _ => false, fun _ => Option.none⟩).store)).store.sets
        "sz:test_sets" TEST_SET_ID = true
    ∧ (main (some [⟨some (.vStr "Q0"), some (.vStr "A0")⟩]) true
        ⟨2025,1,1,0,0,0,2⟩ ⟨2025,1,1,0,0,0,3⟩
        ((main (some [⟨some (.vStr "Q0"), some (.vStr "A0")⟩]) true
            ⟨2025,1,1,0,0,0,0⟩ ⟨2025,1,1,0,0,0,1⟩
            ⟨fun _ _ => false, fun _ => Option.none⟩).store)).store.sets
      = (main (some [⟨some (.vStr "Q0"), some (.vStr "A0")⟩]) true
            ⟨2025,1,1,0,0,0,0⟩ ⟨2025,1,1,0,0,0,1⟩
            ⟨fun _ _ => false, fun _ => Option.none⟩).store.sets
    ∧ (main (some [⟨some (.vStr "Q0"), some (.vStr "A0")⟩]) true
        ⟨2025,1,1,0,0,0,2⟩ ⟨2025,1,1,0,0,0,3⟩
        ((main (some [⟨some (.vStr "Q0"), some (.vStr "A0")⟩]) true
            ⟨2025,1,1,0,0,0,0⟩ ⟨2025,1,1,0,0,0,1⟩
            ⟨fun _ _ => false, fun _ => Option.none⟩).store)).store.strings
        ("sz:test_set:" ++ TEST_SET_ID)
      = some (serializeTestSet (buildTestSet
          (transform [⟨some (.vStr "Q0"), some (.vStr "A0")⟩])
          ⟨2025,1,1,0,0,0,2⟩ ⟨2025,1,1,0,0,0,3⟩)) :=
  c7_rerun_idempotent_at_kv_layer [⟨some (.vStr "Q0"), some (.vStr "A0")⟩]
    ⟨2025,1,1,0,0,0,0⟩ ⟨2025,1,1,0,0,0,1⟩ ⟨2025,1,1,0,0,0,2⟩ ⟨2025,1,1,0,0,0,3⟩
    ⟨fun _ _ => false, fun _ => Option.none⟩

end GSM8kImport
